import Mathlib

/- A shallow embedding of cleaner.py from sonarr-radarr-queue-cleaner.
   The HTTP wrapper functions, the queue scanning logic, the command
   triggers, the configuration loading and the main polling loop are
   modelled as pure functions over explicit oracles for the responses
   of the two external services.  Exceptions are modelled with Except,
   HTTP traffic and log lines with an explicit trace. -/

set_option autoImplicit false

deriving instance DecidableEq for Except

namespace Cleaner

/- Python exceptions the script can raise. -/
inductive PyError where
  | keyError (key : String)
  | valueError (msg : String)
  deriving DecidableEq, Repr

/- A query-string or JSON parameter value: Python str, int, or None. -/
inductive ParamVal where
  | s (v : String)
  | n (v : Nat)
  | null
  deriving DecidableEq, Repr

/- One outgoing HTTP request, as issued by the three wrapper functions.
   Every wrapper sends the api key (as an X-Api-Key header). -/
inductive ApiCall where
  | get (url : String) (apiKey : String) (params : Option (List (String × ParamVal)))
  | delete (url : String) (apiKey : String) (params : List (String × ParamVal))
  | post (url : String) (apiKey : String) (body : List (String × ParamVal))
  deriving DecidableEq, Repr

/- One line written via the logging module. -/
inductive LogEvent where
  | info (msg : String)
  | warning (msg : String)
  | error (msg : String)
  deriving DecidableEq, Repr

/- The observable effects of a piece of the script: HTTP calls and logs,
   each in program order. -/
structure Trace where
  calls : List ApiCall
  logs : List LogEvent
  deriving DecidableEq, Repr

def Trace.append (a b : Trace) : Trace :=
  ⟨a.calls ++ b.calls, a.logs ++ b.logs⟩

instance : Append Trace :=
  ⟨Trace.append⟩

def Trace.empty : Trace := ⟨[], []⟩

def ApiCall.isGet : ApiCall → Bool
  | .get _ _ _ => true
  | _ => false

def ApiCall.isDelete : ApiCall → Bool
  | .delete _ _ _ => true
  | _ => false

def LogEvent.isWarning : LogEvent → Bool
  | .warning _ => true
  | _ => false

def Trace.getCalls (t : Trace) : List ApiCall :=
  t.calls.filter ApiCall.isGet

def Trace.deleteCalls (t : Trace) : List ApiCall :=
  t.calls.filter ApiCall.isDelete

def Trace.warningCount (t : Trace) : Nat :=
  t.logs.countP (fun l => LogEvent.isWarning l)

/- The transport-level outcome of one HTTP request, as seen by a wrapper:
   either requests raised a RequestException (network error), or a response
   arrived with a status code and a body.  body = none models a body that
   response.json() fails to parse (ValueError). -/
structure HttpResponse (α : Type) where
  status : Nat
  body : Option α
  deriving DecidableEq, Repr

inductive HttpOutcome (α : Type) where
  | netError
  | response (r : HttpResponse α)
  deriving DecidableEq, Repr

/- Headers sent by make_api_request (cleaner.py line 32). -/
def request_headers (apiKey : String) : List (String × String) :=
  [("X-Api-Key", apiKey)]

/- Headers sent by make_api_post (cleaner.py line 46). -/
def post_request_headers (apiKey : String) : List (String × String) :=
  [("X-Api-Key", apiKey), ("Content-Type", "application/json")]

/- Headers sent by make_api_delete (cleaner.py line 60). -/
def delete_request_headers (apiKey : String) : List (String × String) :=
  [("X-Api-Key", apiKey)]

/- make_api_request, lines 30-41: raise_for_status turns a 4xx/5xx status
   into a RequestException, which is caught and logged, returning None; a
   ValueError from json parsing is also caught, returning None; otherwise
   the parsed body is returned. -/
def make_api_request {α : Type} (o : HttpOutcome α) : Option α :=
  match o with
  | .netError => none
  | .response r => if 400 ≤ r.status then none else r.body

/- make_api_post, lines 44-55: identical error handling. -/
def make_api_post {α : Type} (o : HttpOutcome α) : Option α :=
  match o with
  | .netError => none
  | .response r => if 400 ≤ r.status then none else r.body

/- make_api_delete, lines 58-69: identical error handling. -/
def make_api_delete {α : Type} (o : HttpOutcome α) : Option α :=
  match o with
  | .netError => none
  | .response r => if 400 ≤ r.status then none else r.body

/- The fixed stall message compared against errorMessage (lines 81, 99). -/
def stall_message : String :=
  "The download is stalled with no connections"

/- A queue record as the script reads it: each field is an optional entry
   of the JSON object (none models an absent key). -/
structure Record where
  title : Option String
  status : Option String
  errorMessage : Option String
  trackedDownloadStatus : Option String
  id : Option Nat
  deriving DecidableEq, Repr

/- A queue response object: the records key and the totalRecords key,
   each possibly absent. -/
structure QueueResponse where
  records : Option (List Record)
  totalRecords : Option Nat
  deriving DecidableEq, Repr

/- The key guard on line 79/97: title, status and trackedDownloadStatus
   must all be present before a record is examined. -/
def hasRequiredKeys (item : Record) : Bool :=
  item.title.isSome && item.status.isSome && item.trackedDownloadStatus.isSome

/- The stall predicate of the spec: status equals warning and errorMessage
   equals the fixed stall message (line 81/99). -/
def stallPredicate (item : Record) : Bool :=
  item.status == some "warning" && item.errorMessage == some stall_message

/- A record the scan actually deletes: it passes the key guard and the
   stall predicate. -/
def isStalledMatch (item : Record) : Bool :=
  hasRequiredKeys item && stallPredicate item

/- A record on which evaluating lines 79-83 cannot raise a KeyError:
   if the key guard passes and status is warning, errorMessage must be
   present, and if it equals the stall message the id key must exist. -/
def safeRecord (item : Record) : Bool :=
  if hasRequiredKeys item then
    if item.status == some "warning" then
      match item.errorMessage with
      | none => false
      | some msg => if msg == stall_message then item.id.isSome else true
    else true
  else true

/- The DELETE request issued on line 83/101. -/
def mkDeleteCall (apiUrl apiKey : String) (i : Nat) : ApiCall :=
  ApiCall.delete (apiUrl ++ "/queue/" ++ toString i) apiKey
    [("removeFromClient", ParamVal.s "true"), ("blocklist", ParamVal.s "true")]

def checking_log (item : Record) : LogEvent :=
  LogEvent.info ("Checking the status of " ++ item.title.getD "")

def removing_log (name : String) (item : Record) : LogEvent :=
  LogEvent.info ("Removing stalled " ++ name ++ " download: " ++ item.title.getD "")

def skip_log (name : String) : LogEvent :=
  LogEvent.warning ("Skipping item in " ++ name ++ " queue due to missing or invalid keys")

/- The body of the for loop on lines 78-85 (and 96-103) for one record.
   Accessing errorMessage or id on a record lacking that key raises a
   KeyError, modelled as an error result. -/
def processItem (apiUrl apiKey name : String) (item : Record) : Trace × Except PyError Unit :=
  if hasRequiredKeys item then
    if item.status == some "warning" then
      match item.errorMessage with
      | none => (⟨[], [checking_log item]⟩, Except.error (PyError.keyError "errorMessage"))
      | some msg =>
        if msg == stall_message then
          match item.id with
          | none =>
              (⟨[], [checking_log item, removing_log name item]⟩,
               Except.error (PyError.keyError "id"))
          | some i =>
              (⟨[mkDeleteCall apiUrl apiKey i], [checking_log item, removing_log name item]⟩,
               Except.ok ())
        else (⟨[], [checking_log item]⟩, Except.ok ())
    else (⟨[], [checking_log item]⟩, Except.ok ())
  else (⟨[], [skip_log name]⟩, Except.ok ())

/- The for loop over the records list: effects accumulate in order, and a
   raised KeyError aborts the loop, keeping the effects already produced. -/
def scanRecords (apiUrl apiKey name : String) : List Record → Trace × Except PyError Unit
  | [] => (Trace.empty, Except.ok ())
  | item :: rest =>
    let pr := processItem apiUrl apiKey name item
    match pr.2 with
    | Except.error e => (pr.1, Except.error e)
    | Except.ok _ =>
      let rec2 := scanRecords apiUrl apiKey name rest
      (pr.1 ++ rec2.1, rec2.2)

/- count_records, lines 158-162: one GET on the queue endpoint with no
   query parameters; if the response is not None and has a records key,
   return its totalRecords value (an absent totalRecords key raises
   KeyError); otherwise fall through and return None. -/
def count_records (apiUrl apiKey : String) (resp : HttpOutcome QueueResponse) :
    Trace × Except PyError (Option Nat) :=
  (⟨[ApiCall.get (apiUrl ++ "/queue") apiKey none], []⟩,
   match make_api_request resp with
   | none => Except.ok none
   | some q =>
     match q.records with
     | none => Except.ok none
     | some _ =>
       match q.totalRecords with
       | none => Except.error (PyError.keyError "totalRecords")
       | some t => Except.ok (some t))

/- The pageSize parameter value on line 75/93: the int returned by
   count_records, or None when count_records returned None. -/
def pageSizeVal (cnt : Option Nat) : ParamVal :=
  match cnt with
  | some c => ParamVal.n c
  | none => ParamVal.null

/- The responses the external service gives to the two GETs of one scan. -/
structure ScanInput where
  countResp : HttpOutcome QueueResponse
  queueResp : HttpOutcome QueueResponse
  deriving DecidableEq, Repr

/- remove_stalled_sonarr_downloads / remove_stalled_radarr_downloads
   (lines 72-87 and 90-105, identical up to the configured url, key and
   the service name in log messages): count the records, fetch the queue
   page sized to that count, then scan the records, deleting stalled
   items; a None response or a missing records key short-circuits with
   one warning log. -/
def remove_stalled_downloads (apiUrl apiKey name : String) (inp : ScanInput) :
    Trace × Except PyError Unit :=
  let t0 : Trace := ⟨[], [LogEvent.info ("Checking " ++ name ++ " queue...")]⟩
  let cr := count_records apiUrl apiKey inp.countResp
  match cr.2 with
  | Except.error e => (t0 ++ cr.1, Except.error e)
  | Except.ok cnt =>
    let tq : Trace :=
      ⟨[ApiCall.get (apiUrl ++ "/queue") apiKey
          (some [("page", ParamVal.s "1"), ("pageSize", pageSizeVal cnt)])], []⟩
    let missing : Trace :=
      ⟨[], [LogEvent.warning (name ++ " queue is None or missing \"records\" key")]⟩
    match make_api_request inp.queueResp with
    | none => (t0 ++ cr.1 ++ tq ++ missing, Except.ok ())
    | some q =>
      match q.records with
      | none => (t0 ++ cr.1 ++ tq ++ missing, Except.ok ())
      | some recs =>
        let tp : Trace := ⟨[], [LogEvent.info ("Processing " ++ name ++ " queue...")]⟩
        let sr := scanRecords apiUrl apiKey name recs
        (t0 ++ cr.1 ++ tq ++ tp ++ sr.1, sr.2)

/- import_sonarr_list / import_radarr_list (lines 108-125): one POST of
   the ImportListSync command; only logging depends on the response. -/
def run_list_import (apiUrl apiKey name : String) (resp : HttpOutcome Unit) : Trace :=
  ⟨[ApiCall.post (apiUrl ++ "/command") apiKey [("name", ParamVal.s "ImportListSync")]],
   [LogEvent.info ("Importing " ++ name ++ " sync list...")] ++
     (match make_api_post resp with
      | some _ => [LogEvent.info ("Imported " ++ name ++ " sync list")]
      | none => [LogEvent.warning (name ++ " queue is None or missing \"records\" key")])⟩

/- refresh_missing_episodes_sonarr (lines 142-154): one POST of the
   missingEpisodeSearch command; only logging depends on the response. -/
def refresh_missing_episodes (apiUrl apiKey : String) (resp : HttpOutcome Unit) : Trace :=
  ⟨[ApiCall.post (apiUrl ++ "/command") apiKey [("name", ParamVal.s "missingEpisodeSearch")]],
   [LogEvent.info "Refreshing Sonarr missing episodes on monitored series..."] ++
     (match make_api_post resp with
      | some _ => [LogEvent.info "Refreshed Sonarr missing episodes on monitored series"]
      | none => [LogEvent.warning "Sonarr queue is None or missing \"records\" key"]) ++
     [LogEvent.info "Refreshed Sonarr missing episodes on monitored series..."]⟩

/- The module-level configuration, lines 19-27: the two base urls (with
   the /api/v3 suffix appended), the two api keys, and the poll interval.
   It is computed once at startup and never mutated. -/
structure Config where
  sonarrApiUrl : String
  radarrApiUrl : String
  sonarrApiKey : String
  radarrApiKey : String
  apiTimeout : Nat
  deriving DecidableEq, Repr

/- The environment variable names the script reads. -/
def envVars : List String :=
  ["SONARR_URL", "RADARR_URL", "SONARR_API_KEY", "RADARR_API_KEY", "API_TIMEOUT"]

/- The int() conversion applied to API_TIMEOUT, modelled for decimal
   naturals: digits parse to the denoted number, anything else raises
   ValueError. -/
def parse_int (s : String) : Option Nat :=
  if s.data ≠ [] ∧ s.data.all Char.isDigit then
    some (s.data.foldl (fun acc c => acc * 10 + (c.toNat - 48)) 0)
  else none

/- Loading the configuration from the environment, lines 19-27.
   os.environ raises KeyError on a missing variable; int raises
   ValueError on a non-numeric API_TIMEOUT. -/
def load_config (env : String → Option String) : Except PyError Config :=
  match env "SONARR_URL" with
  | none => Except.error (PyError.keyError "SONARR_URL")
  | some su =>
    match env "RADARR_URL" with
    | none => Except.error (PyError.keyError "RADARR_URL")
    | some ru =>
      match env "SONARR_API_KEY" with
      | none => Except.error (PyError.keyError "SONARR_API_KEY")
      | some sk =>
        match env "RADARR_API_KEY" with
        | none => Except.error (PyError.keyError "RADARR_API_KEY")
        | some rk =>
          match env "API_TIMEOUT" with
          | none => Except.error (PyError.keyError "API_TIMEOUT")
          | some ts =>
            match parse_int ts with
            | none => Except.error (PyError.valueError "API_TIMEOUT")
            | some t =>
              Except.ok ⟨su ++ "/api/v3", ru ++ "/api/v3", sk, rk, t⟩

/- The responses the external services give during one iteration of the
   main loop. -/
structure CycleInput where
  sonarr : ScanInput
  radarr : ScanInput
  sonarrImportResp : HttpOutcome Unit
  radarrImportResp : HttpOutcome Unit
  sonarrSearchResp : HttpOutcome Unit
  deriving DecidableEq, Repr

/- One iteration of the main loop body, lines 167-173 (everything except
   the final sleep): both scans, both list imports, the missing episode
   search, with an uncaught exception aborting the iteration. -/
def run_cycle (cfg : Config) (inp : CycleInput) : Trace × Except PyError Unit :=
  let t0 : Trace := ⟨[], [LogEvent.info "Running media-tools script"]⟩
  let s := remove_stalled_downloads cfg.sonarrApiUrl cfg.sonarrApiKey "Sonarr" inp.sonarr
  match s.2 with
  | Except.error e => (t0 ++ s.1, Except.error e)
  | Except.ok _ =>
    let r := remove_stalled_downloads cfg.radarrApiUrl cfg.radarrApiKey "Radarr" inp.radarr
    match r.2 with
    | Except.error e => (t0 ++ s.1 ++ r.1, Except.error e)
    | Except.ok _ =>
      let ti := run_list_import cfg.sonarrApiUrl cfg.sonarrApiKey "Sonarr" inp.sonarrImportResp
      let tr := run_list_import cfg.radarrApiUrl cfg.radarrApiKey "Radarr" inp.radarrImportResp
      let tm := refresh_missing_episodes cfg.sonarrApiUrl cfg.sonarrApiKey inp.sonarrSearchResp
      let tf : Trace := ⟨[], [LogEvent.info "Finished running media-tools script."]⟩
      (t0 ++ s.1 ++ r.1 ++ ti ++ tr ++ tm ++ tf, Except.ok ())

/- The first n iterations of the main while loop (lines 165-174), fed by
   an oracle giving the responses of each iteration; an uncaught
   exception ends the process. -/
def run_main (cfg : Config) (ins : Nat → CycleInput) : Nat → Except PyError Unit
  | 0 => Except.ok ()
  | n + 1 =>
    match run_main cfg ins n with
    | Except.error e => Except.error e
    | Except.ok _ =>
      match (run_cycle cfg (ins n)).2 with
      | Except.error e => Except.error e
      | Except.ok _ => Except.ok ()

/- Scheduler skeleton of main, lines 165-174: each iteration starts a
   cycle and then sleeps for the configured interval. -/
inductive MainEvent where
  | cycleStart
  | sleep (d : Nat)
  deriving DecidableEq, Repr

def main_iteration (interval : Nat) : List MainEvent :=
  [MainEvent.cycleStart, MainEvent.sleep interval]

def main_events (interval : Nat) : Nat → List MainEvent
  | 0 => []
  | n + 1 => main_events interval n ++ main_iteration interval

def sleep_time : List MainEvent → Nat
  | [] => 0
  | MainEvent.sleep d :: rest => d + sleep_time rest
  | MainEvent.cycleStart :: rest => sleep_time rest

/- Total sleep accumulated before the start of cycle k (cycles count
   from 0; cycle k starts right after the trace of k full iterations). -/
def start_sleep_time (interval k : Nat) : Nat :=
  sleep_time (main_events interval k)

/- Responses under which count_records cannot raise. -/
def safeCountResp (o : HttpOutcome QueueResponse) : Bool :=
  match make_api_request o with
  | none => true
  | some q =>
    match q.records with
    | none => true
    | some _ => q.totalRecords.isSome

/- Responses under which the record scan cannot raise. -/
def safeQueueResp (o : HttpOutcome QueueResponse) : Bool :=
  match make_api_request o with
  | none => true
  | some q =>
    match q.records with
    | none => true
    | some recs => recs.all safeRecord

def safeScanInput (inp : ScanInput) : Bool :=
  safeCountResp inp.countResp && safeQueueResp inp.queueResp

def safeCycleInput (inp : CycleInput) : Bool :=
  safeScanInput inp.sonarr && safeScanInput inp.radarr

/- Concrete sample data used to witness the theorems below. -/

def c1_stalled : Record :=
  ⟨some "Show S01E01", some "warning", some stall_message, some "warning", some 7⟩

def c1_healthy : Record :=
  ⟨some "Show S01E02", some "downloading", none, some "ok", some 8⟩

def c1_queue : QueueResponse := ⟨some [c1_stalled, c1_healthy], some 2⟩

def c1_input : ScanInput :=
  ⟨HttpOutcome.netError, HttpOutcome.response ⟨200, some c1_queue⟩⟩

def c1_no_title : Record :=
  ⟨none, some "warning", some stall_message, some "warning", some 9⟩

def c1_bad_input : ScanInput :=
  ⟨HttpOutcome.netError, HttpOutcome.response ⟨200, some ⟨some [c1_no_title], some 1⟩⟩⟩

def c2_cfg : Config := ⟨"http://sonarr:8989/api/v3", "http://radarr:7878/api/v3", "sk", "rk", 600⟩

def c2_good_input : CycleInput :=
  ⟨⟨HttpOutcome.netError, HttpOutcome.netError⟩,
   ⟨HttpOutcome.netError, HttpOutcome.response ⟨500, some ⟨none, none⟩⟩⟩,
   HttpOutcome.netError, HttpOutcome.netError, HttpOutcome.netError⟩

def c2_bad_record : Record :=
  ⟨some "Stuck item", some "warning", none, some "warning", some 1⟩

def c2_bad_input : CycleInput :=
  ⟨⟨HttpOutcome.netError, HttpOutcome.response ⟨200, some ⟨some [c2_bad_record], some 1⟩⟩⟩,
   ⟨HttpOutcome.netError, HttpOutcome.netError⟩,
   HttpOutcome.netError, HttpOutcome.netError, HttpOutcome.netError⟩

def c4_input : ScanInput := ⟨HttpOutcome.netError, HttpOutcome.netError⟩

def c5_input : ScanInput :=
  ⟨HttpOutcome.response ⟨200, some ⟨some [], some 3⟩⟩, HttpOutcome.netError⟩

def c6_env : String → Option String := fun s =>
  if s = "SONARR_URL" then some "http://sonarr:8989"
  else if s = "RADARR_URL" then some "http://radarr:7878"
  else if s = "SONARR_API_KEY" then some "sk"
  else if s = "RADARR_API_KEY" then some "rk"
  else if s = "API_TIMEOUT" then some "600"
  else none

def c6_env_home : String → Option String := fun s =>
  if s = "HOME" then some "/home/user" else c6_env s

def c6_env_service_a : String → Option String := fun s =>
  if s = "SERVICE_A_URL" then some "http://other:1234" else c6_env s

def c6_env_sonarr : String → Option String := fun s =>
  if s = "SONARR_URL" then some "http://other:1234" else c6_env s

def c7_stalled : Record :=
  ⟨some "Show S02E03", some "warning", some stall_message, some "warning", some 31⟩

def c7_input : ScanInput :=
  ⟨HttpOutcome.netError, HttpOutcome.response ⟨200, some ⟨some [c7_stalled], some 1⟩⟩⟩

def c9_record : Record :=
  ⟨some "Stuck item", some "warning", none, some "warning", some 3⟩

def c9_input : ScanInput :=
  ⟨HttpOutcome.netError, HttpOutcome.response ⟨200, some ⟨some [c9_record], some 1⟩⟩⟩

def c10_queue : QueueResponse := ⟨some [], some 12⟩

def c10_queue_no_records : QueueResponse := ⟨none, some 12⟩

def c10_input : ScanInput := ⟨HttpOutcome.netError, HttpOutcome.netError⟩

/- Helper lemmas about traces. -/

@[simp] theorem Trace.append_calls (a b : Trace) : (a ++ b).calls = a.calls ++ b.calls := rfl

@[simp] theorem Trace.append_logs (a b : Trace) : (a ++ b).logs = a.logs ++ b.logs := rfl

theorem Trace.eq_of_parts (a b : Trace) (h1 : a.calls = b.calls) (h2 : a.logs = b.logs) :
    a = b := by
  cases a
  cases b
  cases h1
  cases h2
  rfl

@[simp] theorem Trace.empty_calls : Trace.empty.calls = [] := rfl

@[simp] theorem Trace.empty_logs : Trace.empty.logs = [] := rfl

@[simp] theorem Trace.mk_calls (cs : List ApiCall) (ls : List LogEvent) :
    (Trace.mk cs ls).calls = cs := rfl

@[simp] theorem Trace.mk_logs (cs : List ApiCall) (ls : List LogEvent) :
    (Trace.mk cs ls).logs = ls := rfl

@[simp] theorem mkDeleteCall_isDelete (u k : String) (i : Nat) :
    (mkDeleteCall u k i).isDelete = true := rfl

@[simp] theorem mkDeleteCall_isGet (u k : String) (i : Nat) :
    (mkDeleteCall u k i).isGet = false := rfl

/- Helper lemmas about processItem. -/

theorem processItem_getCalls (u k n : String) (item : Record) :
    (processItem u k n item).1.getCalls = [] := by
  unfold processItem
  by_cases h1 : hasRequiredKeys item = true
  · by_cases h2 : (item.status == some "warning") = true
    · cases he : item.errorMessage with
      | none => simp [h1, h2, he, Trace.getCalls]
      | some msg =>
        by_cases h3 : (msg == stall_message) = true
        · cases hi : item.id with
          | none => simp [h1, h2, he, h3, hi, Trace.getCalls]
          | some i => simp [h1, h2, he, h3, hi, Trace.getCalls]
        · simp [h1, h2, he, h3, Trace.getCalls]
    · simp [h1, h2, Trace.getCalls]
  · simp [h1, Trace.getCalls]

theorem processItem_calls_shape (u k n : String) (item : Record) (c : ApiCall)
    (hc : c ∈ (processItem u k n item).1.calls) :
    ∃ i, item.id = some i ∧ isStalledMatch item = true ∧ c = mkDeleteCall u k i := by
  unfold processItem at hc
  by_cases h1 : hasRequiredKeys item = true
  · by_cases h2 : (item.status == some "warning") = true
    · cases he : item.errorMessage with
      | none => simp [h1, h2, he] at hc
      | some msg =>
        by_cases h3 : (msg == stall_message) = true
        · cases hi : item.id with
          | none => simp [h1, h2, he, h3, hi] at hc
          | some i =>
            simp [h1, h2, he, h3, hi] at hc
            refine ⟨i, rfl, ?_, hc⟩
            have hmsg : msg = stall_message := by simpa using h3
            simp [isStalledMatch, stallPredicate, h1, h2, he, hmsg]
        · simp [h1, h2, he, h3] at hc
    · simp [h1, h2] at hc
  · simp [h1] at hc

theorem processItem_ok_of_safe (u k n : String) (item : Record)
    (h : safeRecord item = true) :
    (processItem u k n item).2 = Except.ok () := by
  unfold processItem
  unfold safeRecord at h
  by_cases h1 : hasRequiredKeys item = true
  · by_cases h2 : (item.status == some "warning") = true
    · cases he : item.errorMessage with
      | none => simp [h1, h2, he] at h
      | some msg =>
        by_cases h3 : (msg == stall_message) = true
        · cases hi : item.id with
          | none => simp [h1, h2, he, h3, hi] at h
          | some i => simp [h1, h2, he, h3, hi]
        · simp [h1, h2, he, h3]
    · simp [h1, h2]
  · simp [h1]

theorem processItem_ok_deleteCalls (u k n : String) (item : Record)
    (h : (processItem u k n item).2 = Except.ok ()) :
    (processItem u k n item).1.deleteCalls
      = if isStalledMatch item then (item.id.map (mkDeleteCall u k)).toList else [] := by
  unfold processItem at h ⊢
  by_cases h1 : hasRequiredKeys item = true
  · by_cases h2 : (item.status == some "warning") = true
    · cases he : item.errorMessage with
      | none => simp [h1, h2, he] at h
      | some msg =>
        by_cases h3 : (msg == stall_message) = true
        · cases hi : item.id with
          | none => simp [h1, h2, he, h3, hi] at h
          | some i =>
            have hmsg : msg = stall_message := by simpa using h3
            simp [h1, h2, he, h3, hi, Trace.deleteCalls, isStalledMatch,
              stallPredicate, hmsg]
        · have hmsg : ¬ msg = stall_message := by simpa using h3
          simp [h1, h2, he, h3, Trace.deleteCalls, isStalledMatch, stallPredicate, hmsg]
    · simp [h1, h2, Trace.deleteCalls, isStalledMatch, stallPredicate]
  · simp [h1, Trace.deleteCalls, isStalledMatch]

/- Helper lemmas about trace projections over appends. -/

@[simp] theorem Trace.getCalls_append (a b : Trace) :
    (a ++ b).getCalls = a.getCalls ++ b.getCalls := by
  simp [Trace.getCalls, List.filter_append]

@[simp] theorem Trace.deleteCalls_append (a b : Trace) :
    (a ++ b).deleteCalls = a.deleteCalls ++ b.deleteCalls := by
  simp [Trace.deleteCalls, List.filter_append]

@[simp] theorem Trace.warningCount_append (a b : Trace) :
    (a ++ b).warningCount = a.warningCount + b.warningCount := by
  simp [Trace.warningCount, List.countP_append]

/- Helper lemmas about scanRecords. -/

theorem scanRecords_getCalls (u k n : String) (recs : List Record) :
    (scanRecords u k n recs).1.getCalls = [] := by
  induction recs with
  | nil => rfl
  | cons item rest ih =>
    cases hp : (processItem u k n item).2 with
    | error e =>
      simp only [scanRecords, hp]
      exact processItem_getCalls u k n item
    | ok v =>
      simp only [scanRecords, hp]
      simp [processItem_getCalls, ih]

theorem scanRecords_ok_of_safe (u k n : String) (recs : List Record)
    (h : recs.all safeRecord = true) :
    (scanRecords u k n recs).2 = Except.ok () := by
  induction recs with
  | nil => rfl
  | cons item rest ih =>
    simp only [List.all_cons, Bool.and_eq_true] at h
    have h1 := processItem_ok_of_safe u k n item h.1
    simp only [scanRecords, h1]
    exact ih h.2

theorem scanRecords_ok_deleteCalls (u k n : String) (recs : List Record)
    (h : (scanRecords u k n recs).2 = Except.ok ()) :
    (scanRecords u k n recs).1.deleteCalls
      = (recs.filter isStalledMatch).filterMap (fun r => r.id.map (mkDeleteCall u k)) := by
  induction recs with
  | nil => rfl
  | cons item rest ih =>
    cases hp : (processItem u k n item).2 with
    | error e => exact absurd h (by simp only [scanRecords, hp]; simp)
    | ok v =>
      cases v
      simp only [scanRecords, hp] at h ⊢
      have hd := processItem_ok_deleteCalls u k n item hp
      rw [Trace.deleteCalls_append, hd, ih h]
      by_cases hm : isStalledMatch item = true
      · cases hi : item.id with
        | none => simp [hm, hi, List.filterMap_cons]
        | some i => simp [hm, hi, List.filterMap_cons]
      · simp [hm]

theorem scanRecords_calls_shape (u k n : String) (recs : List Record) (c : ApiCall)
    (hc : c ∈ (scanRecords u k n recs).1.calls) :
    ∃ r i, r ∈ recs ∧ isStalledMatch r = true ∧ r.id = some i ∧ c = mkDeleteCall u k i := by
  induction recs with
  | nil => simp [scanRecords, Trace.empty] at hc
  | cons item rest ih =>
    cases hp : (processItem u k n item).2 with
    | error e =>
      simp only [scanRecords, hp] at hc
      obtain ⟨i, hi, hm, hcq⟩ := processItem_calls_shape u k n item c hc
      exact ⟨item, i, by simp, hm, hi, hcq⟩
    | ok v =>
      simp only [scanRecords, hp] at hc
      rw [Trace.append_calls, List.mem_append] at hc
      cases hc with
      | inl h0 =>
        obtain ⟨i, hi, hm, hcq⟩ := processItem_calls_shape u k n item c h0
        exact ⟨item, i, by simp, hm, hi, hcq⟩
      | inr h0 =>
        obtain ⟨r, i, hr, hm, hi, hcq⟩ := ih h0
        exact ⟨r, i, by simp [hr], hm, hi, hcq⟩

/- Helper lemmas about count_records and remove_stalled_downloads. -/

@[simp] theorem count_records_fst (u k : String) (o : HttpOutcome QueueResponse) :
    (count_records u k o).1 = ⟨[ApiCall.get (u ++ "/queue") k none], []⟩ := rfl

theorem count_records_ok_of_safe (u k : String) (o : HttpOutcome QueueResponse)
    (h : safeCountResp o = true) :
    ∃ cnt, (count_records u k o).2 = Except.ok cnt := by
  cases hq : make_api_request o with
  | none => exact ⟨none, by simp [count_records, hq]⟩
  | some q =>
    cases hr : q.records with
    | none => exact ⟨none, by simp [count_records, hq, hr]⟩
    | some recs =>
      cases ht : q.totalRecords with
      | none => simp [safeCountResp, hq, hr, ht] at h
      | some t => exact ⟨some t, by simp [count_records, hq, hr, ht]⟩

theorem remove_stalled_eq_count_error (u k n : String) (inp : ScanInput) (e : PyError)
    (hcr : (count_records u k inp.countResp).2 = Except.error e) :
    remove_stalled_downloads u k n inp =
      (⟨[ApiCall.get (u ++ "/queue") k none],
        [LogEvent.info ("Checking " ++ n ++ " queue...")]⟩,
       Except.error e) := by
  simp [remove_stalled_downloads, hcr]
  apply Trace.eq_of_parts <;> simp

theorem remove_stalled_eq_missing (u k n : String) (inp : ScanInput) (cnt : Option Nat)
    (hcr : (count_records u k inp.countResp).2 = Except.ok cnt)
    (hq : make_api_request inp.queueResp = none ∨
      ∃ q, make_api_request inp.queueResp = some q ∧ q.records = none) :
    remove_stalled_downloads u k n inp =
      (⟨[ApiCall.get (u ++ "/queue") k none,
         ApiCall.get (u ++ "/queue") k
           (some [("page", ParamVal.s "1"), ("pageSize", pageSizeVal cnt)])],
        [LogEvent.info ("Checking " ++ n ++ " queue..."),
         LogEvent.warning (n ++ " queue is None or missing \"records\" key")]⟩,
       Except.ok ()) := by
  rcases hq with hq | ⟨q, hq, hrec⟩
  · simp [remove_stalled_downloads, hcr, hq]
    apply Trace.eq_of_parts <;> simp
  · simp [remove_stalled_downloads, hcr, hq, hrec]
    apply Trace.eq_of_parts <;> simp

theorem remove_stalled_eq_records (u k n : String) (inp : ScanInput) (cnt : Option Nat)
    (q : QueueResponse) (recs : List Record)
    (hcr : (count_records u k inp.countResp).2 = Except.ok cnt)
    (hq : make_api_request inp.queueResp = some q) (hrec : q.records = some recs) :
    remove_stalled_downloads u k n inp =
      (⟨[ApiCall.get (u ++ "/queue") k none,
         ApiCall.get (u ++ "/queue") k
           (some [("page", ParamVal.s "1"), ("pageSize", pageSizeVal cnt)])]
          ++ (scanRecords u k n recs).1.calls,
        [LogEvent.info ("Checking " ++ n ++ " queue..."),
         LogEvent.info ("Processing " ++ n ++ " queue...")]
          ++ (scanRecords u k n recs).1.logs⟩,
       (scanRecords u k n recs).2) := by
  simp [remove_stalled_downloads, hcr, hq, hrec]
  apply Trace.eq_of_parts <;> simp

theorem remove_stalled_ok_of_safe (u k n : String) (inp : ScanInput)
    (h : safeScanInput inp = true) :
    (remove_stalled_downloads u k n inp).2 = Except.ok () := by
  unfold safeScanInput at h
  rw [Bool.and_eq_true] at h
  obtain ⟨cnt, hcr⟩ := count_records_ok_of_safe u k inp.countResp h.1
  cases hq : make_api_request inp.queueResp with
  | none => rw [remove_stalled_eq_missing u k n inp cnt hcr (Or.inl hq)]
  | some q =>
    cases hrec : q.records with
    | none => rw [remove_stalled_eq_missing u k n inp cnt hcr (Or.inr ⟨q, hq, hrec⟩)]
    | some recs =>
      rw [remove_stalled_eq_records u k n inp cnt q recs hcr hq hrec]
      have hsafe : recs.all safeRecord = true := by
        have h2 := h.2
        simp only [safeQueueResp, hq, hrec] at h2
        exact h2
      exact scanRecords_ok_of_safe u k n recs hsafe

theorem run_cycle_ok_of_safe (cfg : Config) (inp : CycleInput)
    (h : safeCycleInput inp = true) :
    (run_cycle cfg inp).2 = Except.ok () := by
  unfold safeCycleInput at h
  rw [Bool.and_eq_true] at h
  have hs := remove_stalled_ok_of_safe cfg.sonarrApiUrl cfg.sonarrApiKey "Sonarr" inp.sonarr h.1
  have hr := remove_stalled_ok_of_safe cfg.radarrApiUrl cfg.radarrApiKey "Radarr" inp.radarr h.2
  simp [run_cycle, hs, hr]

/- Helper lemmas about the scheduler skeleton. -/

theorem sleep_time_append (a b : List MainEvent) :
    sleep_time (a ++ b) = sleep_time a + sleep_time b := by
  induction a with
  | nil => simp [sleep_time]
  | cons e rest ih => cases e <;> simp [sleep_time, ih, Nat.add_assoc]

theorem sleep_time_main_events (interval n : Nat) :
    sleep_time (main_events interval n) = n * interval := by
  induction n with
  | zero => simp [main_events, sleep_time]
  | succ m ih =>
    simp only [main_events, sleep_time_append, ih, main_iteration, sleep_time]
    ring

/- Claim theorems. -/

/-- C1 counterexample: a record that satisfies the stall predicate (status
warning, errorMessage equal to the stall message) but lacks the title key is
skipped by the scan, so the scan completes with no deletion request for it,
refuting the claim that exactly the records satisfying the stall predicate
are deleted. -/
theorem stalled_record_without_title_not_deleted :
    stallPredicate c1_no_title = true
  ∧ (remove_stalled_downloads "http://sonarr:8989/api/v3" "sk" "Sonarr" c1_bad_input).2
      = Except.ok ()
  ∧ (remove_stalled_downloads "http://sonarr:8989/api/v3" "sk" "Sonarr"
      c1_bad_input).1.deleteCalls = [] := by
  refine ⟨by decide, by decide, by decide⟩

/-- C1 (amended): for every queue response containing a list of records, if
the scan completes without raising a KeyError, it issues a deletion request
for exactly those records that have the title, status and
trackedDownloadStatus keys present and satisfy the stall predicate, and for
no other record. -/
theorem scan_deletes_exactly_guarded_stalled (u k n : String) (inp : ScanInput)
    (q : QueueResponse) (recs : List Record)
    (hq : make_api_request inp.queueResp = some q) (hrec : q.records = some recs)
    (hok : (remove_stalled_downloads u k n inp).2 = Except.ok ()) :
    (remove_stalled_downloads u k n inp).1.deleteCalls
      = (recs.filter isStalledMatch).filterMap (fun r => r.id.map (mkDeleteCall u k)) := by
  cases hcr : (count_records u k inp.countResp).2 with
  | error e =>
    rw [remove_stalled_eq_count_error u k n inp e hcr] at hok
    cases hok
  | ok cnt =>
    rw [remove_stalled_eq_records u k n inp cnt q recs hcr hq hrec] at hok ⊢
    have hd := scanRecords_ok_deleteCalls u k n recs hok
    simp only [Trace.deleteCalls, Trace.mk_calls, List.filter_append] at hd ⊢
    simp [ApiCall.isDelete, hd]

/-- C1 witness: on a concrete queue holding one guarded stalled record and
one healthy record, the scan completes and deletes exactly the stalled one. -/
theorem scan_deletes_exactly_guarded_stalled_witness :
    make_api_request c1_input.queueResp = some c1_queue
  ∧ c1_queue.records = some [c1_stalled, c1_healthy]
  ∧ (remove_stalled_downloads "http://sonarr:8989/api/v3" "sk" "Sonarr" c1_input).2
      = Except.ok ()
  ∧ (remove_stalled_downloads "http://sonarr:8989/api/v3" "sk" "Sonarr"
        c1_input).1.deleteCalls
      = ([c1_stalled, c1_healthy].filter isStalledMatch).filterMap
          (fun r => r.id.map (mkDeleteCall "http://sonarr:8989/api/v3" "sk")) :=
  ⟨by decide, by decide, by decide,
   scan_deletes_exactly_guarded_stalled "http://sonarr:8989/api/v3" "sk" "Sonarr"
     c1_input c1_queue [c1_stalled, c1_healthy] (by decide) (by decide) (by decide)⟩

/-- C2 counterexample: a single queue response of unexpected shape (a record
with the title, status and trackedDownloadStatus keys, status warning, and no
errorMessage key) makes the very first iteration of the main loop raise an
uncaught KeyError, refuting the claim that no error is fatal for every
sequence of responses the services may return. -/
theorem malformed_record_crashes_main_loop :
    run_main c2_cfg (fun _ => c2_bad_input) 1
      = Except.error (PyError.keyError "errorMessage") := by
  decide

/-- C2 (amended): no failed HTTP call is fatal: for every sequence of
responses in which any call may fail (network error, HTTP error status, or
unparsable body, all yielding a null result) and every successfully parsed
queue response is well shaped, the main loop completes every iteration and
proceeds to its next step; only a parsed queue record of unexpected shape
(a guarded record with status warning lacking errorMessage, a stalled record
lacking id, or a counted response lacking totalRecords) raises an uncaught
KeyError. -/
theorem loop_survives_failed_calls (cfg : Config) (ins : Nat → CycleInput) (niter : Nat)
    (h : ∀ j, j < niter → safeCycleInput (ins j) = true) :
    run_main cfg ins niter = Except.ok () := by
  induction niter with
  | zero => rfl
  | succ m ih =>
    have hm := ih (fun j hj => h j (Nat.lt_succ_of_lt hj))
    have hc := run_cycle_ok_of_safe cfg (ins m) (h m (Nat.lt_succ_self m))
    simp [run_main, hm, hc]

/-- C2 witness: two iterations in which every HTTP call fails (network
errors and one 500 response) still complete. -/
theorem loop_survives_failed_calls_witness :
    (∀ j, j < 2 → safeCycleInput ((fun _ => c2_good_input) j) = true)
  ∧ run_main c2_cfg (fun _ => c2_good_input) 2 = Except.ok () :=
  ⟨by decide, loop_survives_failed_calls c2_cfg (fun _ => c2_good_input) 2 (by decide)⟩

/-- C3 counterexample: the GET wrapper (and likewise the DELETE wrapper)
sends only the X-Api-Key header and no Content-Type header at all, refuting
the claim that every wrapper performs its call with a JSON content type. -/
theorem get_request_has_no_content_type :
    request_headers "key" = [("X-Api-Key", "key")]
  ∧ ("Content-Type", "application/json") ∉ request_headers "key"
  ∧ ("Content-Type", "application/json") ∉ delete_request_headers "key" := by
  refine ⟨rfl, by decide, by decide⟩

/-- C3 (amended): every wrapper sends the API key in the X-Api-Key header,
but only the POST wrapper sets a JSON content type; each wrapper returns the
parsed JSON body on a 2xx response and returns a null result, without
raising, on a network error, an HTTP error status, or a JSON parse
failure. -/
theorem api_wrappers_contract {α : Type} (k : String) (st : Nat) (b : α)
    (h2 : 200 ≤ st) (h3 : st < 300) :
    make_api_request (HttpOutcome.response ⟨st, some b⟩) = some b
  ∧ make_api_post (HttpOutcome.response ⟨st, some b⟩) = some b
  ∧ make_api_delete (HttpOutcome.response ⟨st, some b⟩) = some b
  ∧ make_api_request (HttpOutcome.netError : HttpOutcome α) = none
  ∧ make_api_post (HttpOutcome.netError : HttpOutcome α) = none
  ∧ make_api_delete (HttpOutcome.netError : HttpOutcome α) = none
  ∧ make_api_request (HttpOutcome.response (⟨st, none⟩ : HttpResponse α)) = none
  ∧ make_api_post (HttpOutcome.response (⟨st, none⟩ : HttpResponse α)) = none
  ∧ make_api_delete (HttpOutcome.response (⟨st, none⟩ : HttpResponse α)) = none
  ∧ make_api_request (HttpOutcome.response (⟨404, some b⟩ : HttpResponse α)) = none
  ∧ ("X-Api-Key", k) ∈ request_headers k
  ∧ ("X-Api-Key", k) ∈ post_request_headers k
  ∧ ("X-Api-Key", k) ∈ delete_request_headers k
  ∧ ("Content-Type", "application/json") ∈ post_request_headers k
  ∧ ("Content-Type", "application/json") ∉ request_headers k
  ∧ ("Content-Type", "application/json") ∉ delete_request_headers k := by
  have hlt : ¬ 400 ≤ st := by omega
  refine ⟨?_, ?_, ?_, rfl, rfl, rfl, ?_, ?_, ?_, ?_, ?_, ?_, ?_, ?_, ?_, ?_⟩ <;>
    simp [make_api_request, make_api_post, make_api_delete, hlt,
      request_headers, post_request_headers, delete_request_headers]

/-- C3 witness: the contract instantiated at a concrete key, a 200 status
and a concrete parsed body. -/
theorem api_wrappers_contract_witness :
    (200 ≤ 200 ∧ 200 < 300)
  ∧ (make_api_request (HttpOutcome.response ⟨200, some (5 : Nat)⟩) = some 5
      ∧ ("Content-Type", "application/json") ∉ request_headers "key") :=
  ⟨by decide,
   ⟨(api_wrappers_contract "key" 200 (5 : Nat) (by decide) (by decide)).1,
    (api_wrappers_contract "key" 200 (5 : Nat) (by decide) (by decide)).2.2.2.2.2.2.2.2.2.2.2.2.2.2.1⟩⟩

/-- C4: for every queue response that is null or lacks the records key
(given the preceding count lookup returned normally), the scan performs zero
deletion requests, emits exactly one warning log, and returns normally, so
the rest of that service cycle is short-circuited without aborting the
process. -/
theorem missing_records_one_warning_no_deletes (u k n : String) (inp : ScanInput)
    (cnt : Option Nat)
    (hcr : (count_records u k inp.countResp).2 = Except.ok cnt)
    (hq : make_api_request inp.queueResp = none ∨
      ∃ q, make_api_request inp.queueResp = some q ∧ q.records = none) :
    (remove_stalled_downloads u k n inp).2 = Except.ok ()
  ∧ (remove_stalled_downloads u k n inp).1.deleteCalls = []
  ∧ (remove_stalled_downloads u k n inp).1.warningCount = 1 := by
  rw [remove_stalled_eq_missing u k n inp cnt hcr hq]
  exact ⟨rfl, rfl, rfl⟩

/-- C4 witness: a cycle in which both GETs fail on the network performs no
deletion, logs one warning, and returns normally. -/
theorem missing_records_one_warning_no_deletes_witness :
    (count_records "http://sonarr:8989/api/v3" "sk" c4_input.countResp).2
      = Except.ok none
  ∧ make_api_request c4_input.queueResp = none
  ∧ ((remove_stalled_downloads "http://sonarr:8989/api/v3" "sk" "Sonarr" c4_input).2
        = Except.ok ()
      ∧ (remove_stalled_downloads "http://sonarr:8989/api/v3" "sk" "Sonarr"
          c4_input).1.deleteCalls = []
      ∧ (remove_stalled_downloads "http://sonarr:8989/api/v3" "sk" "Sonarr"
          c4_input).1.warningCount = 1) :=
  ⟨by decide, by decide,
   missing_records_one_warning_no_deletes "http://sonarr:8989/api/v3" "sk" "Sonarr"
     c4_input none (by decide) (Or.inl (by decide))⟩

/-- C5: whenever the count lookup returns normally, the scan of one service
issues exactly two GET requests to the queue endpoint: first the count
lookup with no query parameters, then the page fetch with page 1 and a
pageSize parameter equal to the count returned by the lookup. -/
theorem queue_fetched_with_two_gets (u k n : String) (inp : ScanInput) (cnt : Option Nat)
    (hcr : (count_records u k inp.countResp).2 = Except.ok cnt) :
    (remove_stalled_downloads u k n inp).1.getCalls
      = [ApiCall.get (u ++ "/queue") k none,
         ApiCall.get (u ++ "/queue") k
           (some [("page", ParamVal.s "1"), ("pageSize", pageSizeVal cnt)])]
  ∧ ∀ c : Nat, cnt = some c → pageSizeVal cnt = ParamVal.n c := by
  constructor
  · cases hqr : make_api_request inp.queueResp with
    | none =>
      rw [remove_stalled_eq_missing u k n inp cnt hcr (Or.inl hqr)]
      rfl
    | some q =>
      cases hrec : q.records with
      | none =>
        rw [remove_stalled_eq_missing u k n inp cnt hcr (Or.inr ⟨q, hqr, hrec⟩)]
        rfl
      | some recs =>
        rw [remove_stalled_eq_records u k n inp cnt q recs hcr hqr hrec]
        have hs := scanRecords_getCalls u k n recs
        simp only [Trace.getCalls, Trace.mk_calls, List.filter_append] at hs ⊢
        simp [ApiCall.isGet, hs]
  · intro c hc
    rw [hc]
    rfl

/-- C5 witness: with a count lookup that returns 3 records and a page fetch
that fails on the network, the scan still issues exactly the two GETs, the
second with pageSize 3. -/
theorem queue_fetched_with_two_gets_witness :
    (count_records "http://sonarr:8989/api/v3" "sk" c5_input.countResp).2
      = Except.ok (some 3)
  ∧ ((remove_stalled_downloads "http://sonarr:8989/api/v3" "sk" "Sonarr"
        c5_input).1.getCalls
      = [ApiCall.get ("http://sonarr:8989/api/v3" ++ "/queue") "sk" none,
         ApiCall.get ("http://sonarr:8989/api/v3" ++ "/queue") "sk"
           (some [("page", ParamVal.s "1"), ("pageSize", pageSizeVal (some 3))])]
      ∧ ∀ c : Nat, (some 3 : Option Nat) = some c → pageSizeVal (some 3) = ParamVal.n c) :=
  ⟨by decide,
   queue_fetched_with_two_gets "http://sonarr:8989/api/v3" "sk" "Sonarr" c5_input
     (some 3) (by decide)⟩

/-- C6 counterexample: changing the value of an environment variable named
SERVICE_A_URL leaves the loaded configuration unchanged, while changing
SONARR_URL changes it, refuting the claim that the configuration is read
from variables named SERVICE_A_URL, SERVICE_A_API_KEY, SERVICE_B_URL,
SERVICE_B_API_KEY and POLL_INTERVAL_SECONDS. -/
theorem config_not_read_from_service_a_url :
    c6_env "SERVICE_A_URL" ≠ c6_env_service_a "SERVICE_A_URL"
  ∧ load_config c6_env = load_config c6_env_service_a
  ∧ c6_env "SONARR_URL" ≠ c6_env_sonarr "SONARR_URL"
  ∧ load_config c6_env ≠ load_config c6_env_sonarr := by
  refine ⟨by decide, by decide, by decide, by decide⟩

/-- C6 (amended): the configuration is read from the environment variables
SONARR_URL, SONARR_API_KEY, RADARR_URL, RADARR_API_KEY and API_TIMEOUT,
loaded once at startup and immutable for the process lifetime: two
environments agreeing on those five variables load the same
configuration. -/
theorem config_determined_by_env_vars (env env2 : String → Option String)
    (h : ∀ v ∈ envVars, env v = env2 v) :
    load_config env = load_config env2 := by
  have h1 := h "SONARR_URL" (by simp [envVars])
  have h2 := h "RADARR_URL" (by simp [envVars])
  have h3 := h "SONARR_API_KEY" (by simp [envVars])
  have h4 := h "RADARR_API_KEY" (by simp [envVars])
  have h5 := h "API_TIMEOUT" (by simp [envVars])
  unfold load_config
  rw [h1, h2, h3, h4, h5]

/-- C6 witness: an environment and its extension by an unrelated HOME
variable load the same configuration. -/
theorem config_determined_by_env_vars_witness :
    (∀ v ∈ envVars, c6_env v = c6_env_home v)
  ∧ load_config c6_env = load_config c6_env_home :=
  ⟨by decide, config_determined_by_env_vars c6_env c6_env_home (by decide)⟩

/-- C7: every deletion request issued during a scan targets the queue
removal endpoint of that service for the id of a stalled record of the
fetched queue, with both removeFromClient and blocklist set to true. -/
theorem delete_calls_target_queue_with_flags (u k n : String) (inp : ScanInput)
    (c : ApiCall)
    (hc : c ∈ (remove_stalled_downloads u k n inp).1.calls)
    (hd : c.isDelete = true) :
    ∃ i, c = ApiCall.delete (u ++ "/queue/" ++ toString i) k
        [("removeFromClient", ParamVal.s "true"), ("blocklist", ParamVal.s "true")]
      ∧ ∃ q recs r, make_api_request inp.queueResp = some q ∧ q.records = some recs
          ∧ r ∈ recs ∧ isStalledMatch r = true ∧ r.id = some i := by
  cases hcr : (count_records u k inp.countResp).2 with
  | error e =>
    rw [remove_stalled_eq_count_error u k n inp e hcr] at hc
    simp at hc
    rw [hc] at hd
    cases hd
  | ok cnt =>
    cases hqr : make_api_request inp.queueResp with
    | none =>
      rw [remove_stalled_eq_missing u k n inp cnt hcr (Or.inl hqr)] at hc
      simp at hc
      rcases hc with hc | hc <;> (rw [hc] at hd; cases hd)
    | some q =>
      cases hrec : q.records with
      | none =>
        rw [remove_stalled_eq_missing u k n inp cnt hcr (Or.inr ⟨q, hqr, hrec⟩)] at hc
        simp at hc
        rcases hc with hc | hc <;> (rw [hc] at hd; cases hd)
      | some recs =>
        rw [remove_stalled_eq_records u k n inp cnt q recs hcr hqr hrec] at hc
        simp only [Trace.mk_calls, List.cons_append, List.nil_append,
          List.mem_cons, List.mem_append] at hc
        rcases hc with hc | hc | hc
        · rw [hc] at hd; cases hd
        · rw [hc] at hd; cases hd
        · obtain ⟨r, i, hr, hm, hi, hcq⟩ := scanRecords_calls_shape u k n recs c hc
          exact ⟨i, by rw [hcq]; rfl, q, recs, r, rfl, hrec, hr, hm, hi⟩

/-- C7 witness: the concrete delete call issued for a stalled record with
id 31 carries both flags and targets the queue endpoint for that id. -/
theorem delete_calls_target_queue_with_flags_witness :
    ApiCall.delete ("http://sonarr:8989/api/v3" ++ "/queue/" ++ toString 31) "sk"
        [("removeFromClient", ParamVal.s "true"), ("blocklist", ParamVal.s "true")]
      ∈ (remove_stalled_downloads "http://sonarr:8989/api/v3" "sk" "Sonarr"
          c7_input).1.calls
  ∧ (ApiCall.delete ("http://sonarr:8989/api/v3" ++ "/queue/" ++ toString 31) "sk"
        [("removeFromClient", ParamVal.s "true"), ("blocklist", ParamVal.s "true")]).isDelete
      = true
  ∧ ∃ i, ApiCall.delete ("http://sonarr:8989/api/v3" ++ "/queue/" ++ toString 31) "sk"
        [("removeFromClient", ParamVal.s "true"), ("blocklist", ParamVal.s "true")]
      = ApiCall.delete ("http://sonarr:8989/api/v3" ++ "/queue/" ++ toString i) "sk"
          [("removeFromClient", ParamVal.s "true"), ("blocklist", ParamVal.s "true")]
      ∧ ∃ q recs r,
          make_api_request c7_input.queueResp = some q ∧ q.records = some recs
        ∧ r ∈ recs ∧ isStalledMatch r = true ∧ r.id = some i :=
  ⟨by decide, by decide,
   delete_calls_target_queue_with_flags "http://sonarr:8989/api/v3" "sk" "Sonarr"
     c7_input _ (by decide) (by decide)⟩

/-- C8: in the scheduler trace with configured interval 5, the sleep time
accumulated between the start of cycle j and the start of cycle j + 2 (two
full cycles later) is at least 10, since every iteration ends with a sleep
of the fixed configured duration. -/
theorem two_cycles_sleep_at_least_ten (j : Nat) :
    10 ≤ start_sleep_time 5 (j + 2) - start_sleep_time 5 j := by
  unfold start_sleep_time
  rw [sleep_time_main_events, sleep_time_main_events]
  omega

/-- C9: a queue record that has the title, status and trackedDownloadStatus
keys, has status warning, and lacks the errorMessage key makes the stall
predicate evaluation access errorMessage unguarded, raising a KeyError that
the scan does not catch. -/
theorem warning_record_without_error_message_raises :
    hasRequiredKeys c9_record = true
  ∧ c9_record.status = some "warning"
  ∧ c9_record.errorMessage = none
  ∧ (remove_stalled_downloads "http://sonarr:8989/api/v3" "sk" "Sonarr" c9_input).2
      = Except.error (PyError.keyError "errorMessage") := by
  refine ⟨by decide, by decide, by decide, by decide⟩

/-- C10: count_records returns the totalRecords value whenever the count
response is non-null and has a records key (without checking that
totalRecords is present: a response with records but no totalRecords raises
KeyError), returns None when the response is null or lacks records, and in
the None case the queue page fetch is still issued, with a null
pageSize. -/
theorem count_records_behaviour (u k n : String) (q q2 : QueueResponse) (t : Nat)
    (recs : List Record) (inp : ScanInput)
    (h1 : q.records = some recs) (h2 : q.totalRecords = some t)
    (h3 : q2.records = none)
    (h4 : (count_records u k inp.countResp).2 = Except.ok none) :
    (count_records u k (HttpOutcome.response ⟨200, some q⟩)).2 = Except.ok (some t)
  ∧ (count_records u k (HttpOutcome.netError : HttpOutcome QueueResponse)).2
      = Except.ok none
  ∧ (count_records u k (HttpOutcome.response ⟨200, some q2⟩)).2 = Except.ok none
  ∧ (count_records u k (HttpOutcome.response ⟨200, some ⟨some recs, none⟩⟩)).2
      = Except.error (PyError.keyError "totalRecords")
  ∧ ApiCall.get (u ++ "/queue") k
        (some [("page", ParamVal.s "1"), ("pageSize", ParamVal.null)])
      ∈ (remove_stalled_downloads u k n inp).1.calls := by
  refine ⟨?_, rfl, ?_, ?_, ?_⟩
  · simp [count_records, make_api_request, h1, h2]
  · simp [count_records, make_api_request, h3]
  · simp [count_records, make_api_request]
  · cases hqr : make_api_request inp.queueResp with
    | none =>
      rw [remove_stalled_eq_missing u k n inp none h4 (Or.inl hqr)]
      simp [pageSizeVal]
    | some qq =>
      cases hrec : qq.records with
      | none =>
        rw [remove_stalled_eq_missing u k n inp none h4 (Or.inr ⟨qq, hqr, hrec⟩)]
        simp [pageSizeVal]
      | some rr =>
        rw [remove_stalled_eq_records u k n inp none qq rr h4 hqr hrec]
        simp [pageSizeVal]

/-- C10 witness: a concrete queue response with records and totalRecords 12,
one with no records key, and a scan whose count lookup failed, whose page
fetch is issued with a null pageSize. -/
theorem count_records_behaviour_witness :
    ((⟨some [], some 12⟩ : QueueResponse).records = some []
      ∧ (⟨some [], some 12⟩ : QueueResponse).totalRecords = some 12
      ∧ (c10_queue_no_records).records = none
      ∧ (count_records "http://sonarr:8989/api/v3" "sk" c10_input.countResp).2
          = Except.ok none)
  ∧ (count_records "http://sonarr:8989/api/v3" "sk"
        (HttpOutcome.response ⟨200, some ⟨some [], some 12⟩⟩)).2 = Except.ok (some 12)
  ∧ ApiCall.get ("http://sonarr:8989/api/v3" ++ "/queue") "sk"
        (some [("page", ParamVal.s "1"), ("pageSize", ParamVal.null)])
      ∈ (remove_stalled_downloads "http://sonarr:8989/api/v3" "sk" "Sonarr"
          c10_input).1.calls :=
  ⟨⟨by decide, by decide, by decide, by decide⟩,
   (count_records_behaviour "http://sonarr:8989/api/v3" "sk" "Sonarr"
      ⟨some [], some 12⟩ c10_queue_no_records 12 [] c10_input
      (by decide) (by decide) (by decide) (by decide)).1,
   (count_records_behaviour "http://sonarr:8989/api/v3" "sk" "Sonarr"
      ⟨some [], some 12⟩ c10_queue_no_records 12 [] c10_input
      (by decide) (by decide) (by decide) (by decide)).2.2.2.2⟩

end Cleaner
